import Mathlib

/-!
Verification of the dual-stream capture core of drivers/video/video.c
(Spresense NuttX video driver).  The driver multiplexes a continuous
video stream and a single-shot still stream over one DMA-capable image
pipeline.  Pure functions are translated directly; external collaborator
calls (sensor control operations, image-data operations, and the frame
buffer queue living in video_framebuff.c) are represented by explicit
inputs (for values they return) and by an emitted action list (for the
DMA commands issued to the pipeline).
-/

/-- The per-stream state variable, enum video_state_e. -/
inductive VideoState
  | streamoff
  | streamon
  | dma
deriving DecidableEq

/-- Transition causes fed to the arbiter, enum video_state_transition_cause. -/
inductive Cause
  | videoStop
  | videoStart
  | videoDqbuf
  | stillStop
  | stillStart
deriving DecidableEq

/-- Buffer type selecting the target stream, V4L2_BUF_TYPE_VIDEO_CAPTURE
or V4L2_BUF_TYPE_STILL_CAPTURE. -/
inductive BufType
  | videoCapture
  | stillCapture
deriving DecidableEq

/-- DMA commands issued to the image-data operations interface. -/
inductive DmaAction
  | startDma (t : BufType)
  | cancelDma
  | setDmabuf
deriving DecidableEq

/-- Return value OK of the driver (0). -/
def OK : Int := 0

/-- NuttX generic ERROR return value (-1). -/
def ERROR : Int := -1

/-- Errno EPERM; the driver returns -EPERM for forbidden operations. -/
def EPERM : Int := 1

/-- Errno EINVAL; the driver returns -EINVAL for invalid arguments. -/
def EINVAL : Int := 22

/-- Sentinel VIDEO_REMAINING_CAPNUM_INFINITY (-1) for an unbounded
number of remaining captures. -/
def VIDEO_REMAINING_CAPNUM_INFINITY : Int := -1

/-- Predicate is_taking_still_picture: the still stream is in STREAMON
or DMA.  The source reads vmng->still_inf.state; here the still state is
passed directly. -/
def is_taking_still_picture (still_state : VideoState) : Bool :=
  still_state = VideoState.streamon || still_state = VideoState.dma

/-- Arbiter estimate_next_video_state: next video-stream state from the
current video state, the current still state and the transition cause.
The source reads both states out of vmng; here they are passed directly. -/
def estimate_next_video_state (video_state still_state : VideoState)
    (cause : Cause) : VideoState :=
  match cause with
  | Cause.videoStop => VideoState.streamoff
  | Cause.videoStart =>
      if is_taking_still_picture still_state then VideoState.streamon
      else VideoState.dma
  | Cause.stillStop =>
      if video_state = VideoState.streamon then VideoState.dma
      else video_state
  | Cause.stillStart =>
      if video_state = VideoState.dma then VideoState.streamon
      else video_state
  | Cause.videoDqbuf =>
      if video_state = VideoState.streamon &&
         !(is_taking_still_picture still_state) then VideoState.dma
      else video_state

/-- Per-stream portion of struct video_type_inf_s that the state-machine
operations read and write: the state variable and remaining_capnum. -/
structure StreamInf where
  state : VideoState
  remaining_capnum : Int
deriving DecidableEq

/-- The manager fields shared by the state-machine operations: the video
and still stream records of struct video_mng_s. -/
structure Mng where
  video_inf : StreamInf
  still_inf : StreamInf
deriving DecidableEq

/-- change_video_state: applies the arbiter decision to the video stream.
When entering DMA it pops the head queued slot of the video queue
(video_framebuff_get_dma_container); whether a slot is available is the
input video_has_queued, and a successful start emits a startDma action.
When no slot is available the next state is demoted to STREAMON.  When
leaving DMA the in-flight DMA is cancelled. -/
def change_video_state (m : Mng) (video_has_queued : Bool)
    (next_state : VideoState) : Mng × List DmaAction :=
  if m.video_inf.state ≠ VideoState.dma ∧ next_state = VideoState.dma then
    if video_has_queued then
      ({ m with video_inf := { m.video_inf with state := VideoState.dma } },
       [DmaAction.startDma BufType.videoCapture])
    else
      ({ m with video_inf := { m.video_inf with state := VideoState.streamon } },
       [])
  else if m.video_inf.state = VideoState.dma ∧ next_state ≠ VideoState.dma then
    ({ m with video_inf := { m.video_inf with state := next_state } },
     [DmaAction.cancelDma])
  else
    ({ m with video_inf := { m.video_inf with state := next_state } }, [])

/-- the claim C1: the arbiter is a pure function of the two current
states and the cause and returns exactly the table value: VIDEO_STOP
yields STREAMOFF; VIDEO_START yields STREAMON when the still stream is
in STREAMON or DMA and DMA otherwise; STILL_START maps a video state of
DMA to STREAMON and leaves any other state unchanged; STILL_STOP maps
STREAMON to DMA and leaves any other state unchanged; VIDEO_DQBUF maps
STREAMON to DMA when the still stream is in neither STREAMON nor DMA,
and otherwise leaves the state unchanged. -/
theorem C1_arbiter_table (v s : VideoState) (c : Cause) :
    (c = Cause.videoStop →
       estimate_next_video_state v s c = VideoState.streamoff) ∧
    (c = Cause.videoStart →
       ((s = VideoState.streamon ∨ s = VideoState.dma) →
          estimate_next_video_state v s c = VideoState.streamon) ∧
       ((s ≠ VideoState.streamon ∧ s ≠ VideoState.dma) →
          estimate_next_video_state v s c = VideoState.dma)) ∧
    (c = Cause.stillStart →
       (v = VideoState.dma →
          estimate_next_video_state v s c = VideoState.streamon) ∧
       (v ≠ VideoState.dma → estimate_next_video_state v s c = v)) ∧
    (c = Cause.stillStop →
       (v = VideoState.streamon →
          estimate_next_video_state v s c = VideoState.dma) ∧
       (v ≠ VideoState.streamon → estimate_next_video_state v s c = v)) ∧
    (c = Cause.videoDqbuf →
       ((v = VideoState.streamon ∧ s ≠ VideoState.streamon ∧
           s ≠ VideoState.dma) →
          estimate_next_video_state v s c = VideoState.dma) ∧
       (¬(v = VideoState.streamon ∧ s ≠ VideoState.streamon ∧
            s ≠ VideoState.dma) →
          estimate_next_video_state v s c = v)) := by
  cases v <;> cases s <;> cases c <;> decide

/-- Witness for C1 at a concrete row of the table: STILL_START with the
video stream in DMA yields STREAMON. -/
theorem C1_arbiter_table_witness :
    estimate_next_video_state VideoState.dma VideoState.streamoff
      Cause.stillStart = VideoState.streamon :=
  ((C1_arbiter_table VideoState.dma VideoState.streamoff
      Cause.stillStart).2.2.1 rfl).1 rfl

/-- Helper: change_video_state never touches the still stream record. -/
theorem change_video_state_still_inf (m : Mng) (vq : Bool)
    (next : VideoState) :
    (change_video_state m vq next).1.still_inf = m.still_inf := by
  unfold change_video_state
  split
  · split <;> rfl
  · split <;> rfl

/-- Helper: the video state after change_video_state is next_state,
except that entering DMA with no queued slot demotes to STREAMON. -/
theorem change_video_state_video_state (m : Mng) (vq : Bool)
    (next : VideoState) :
    (change_video_state m vq next).1.video_inf.state =
      if m.video_inf.state ≠ VideoState.dma ∧ next = VideoState.dma then
        (if vq then VideoState.dma else VideoState.streamon)
      else next := by
  unfold change_video_state
  split
  · split <;> simp_all
  · split <;> simp_all

/-- video_takepict_start: starts a still capture of capture_num frames.
Queue pops by video_framebuff_get_dma_container on the video and still
queues are represented by the inputs video_has_queued and
still_has_queued; DMA commands are emitted as actions; the Int result is
the return value. -/
def video_takepict_start (m : Mng) (video_has_queued still_has_queued : Bool)
    (capture_num : Int) : Mng × List DmaAction × Int :=
  if m.still_inf.state ≠ VideoState.streamoff then
    (m, [], -EPERM)
  else
    let m1 : Mng :=
      { m with still_inf :=
          { m.still_inf with remaining_capnum :=
              if capture_num > 0 then capture_num
              else VIDEO_REMAINING_CAPNUM_INFINITY } }
    let next := estimate_next_video_state m1.video_inf.state
                  m1.still_inf.state Cause.stillStart
    let r := change_video_state m1 video_has_queued next
    if still_has_queued then
      ({ r.1 with still_inf := { r.1.still_inf with state := VideoState.dma } },
       r.2 ++ [DmaAction.startDma BufType.stillCapture], OK)
    else
      ({ r.1 with still_inf :=
           { r.1.still_inf with state := VideoState.streamon } },
       r.2, OK)

/-- video_takepict_stop: stops the still capture.  The input
video_has_queued is the video-queue pop consulted by change_video_state
when the arbiter resumes video DMA. -/
def video_takepict_stop (m : Mng) (video_has_queued : Bool) :
    Mng × List DmaAction × Int :=
  if m.still_inf.state = VideoState.streamoff ∧
     m.still_inf.remaining_capnum = VIDEO_REMAINING_CAPNUM_INFINITY then
    (m, [], -EPERM)
  else
    let acts0 := if m.still_inf.state = VideoState.dma
                 then [DmaAction.cancelDma] else []
    let m1 : Mng :=
      { m with still_inf :=
          { state := VideoState.streamoff,
            remaining_capnum := VIDEO_REMAINING_CAPNUM_INFINITY } }
    let next := estimate_next_video_state m1.video_inf.state
                  m1.still_inf.state Cause.stillStop
    let r := change_video_state m1 video_has_queued next
    (r.1, acts0 ++ r.2, OK)

/-- the claim C3: video_takepict_start(n) returns NOT_PERMITTED with no
state change whenever the still stream is not in STREAMOFF; when the
still stream is in STREAMOFF it sets still.remaining_capnum to n if
n > 0 and to the infinite sentinel if n ≤ 0, and leaves the still stream
in DMA if a queued slot was available to start DMA, else in STREAMON. -/
theorem C3_takepict_start (m : Mng) (vq sq : Bool) (n : Int) :
    (m.still_inf.state ≠ VideoState.streamoff →
       video_takepict_start m vq sq n = (m, [], -EPERM)) ∧
    (m.still_inf.state = VideoState.streamoff →
       (video_takepict_start m vq sq n).2.2 = OK ∧
       (video_takepict_start m vq sq n).1.still_inf.remaining_capnum =
         (if n > 0 then n else VIDEO_REMAINING_CAPNUM_INFINITY) ∧
       (video_takepict_start m vq sq n).1.still_inf.state =
         (if sq then VideoState.dma else VideoState.streamon)) := by
  constructor
  · intro h
    simp [video_takepict_start, h]
  · intro h
    have hh : ¬ (m.still_inf.state ≠ VideoState.streamoff) := by simp [h]
    cases sq <;>
      simp [video_takepict_start, hh, change_video_state_still_inf]

/-- Witness for C3: from a fully STREAMOFF manager, take_picture_start 3
with a queued still slot succeeds, sets remaining_capnum 3, and
leaves the still stream in DMA. -/
theorem C3_takepict_start_witness :
    (Mng.mk ⟨VideoState.streamoff, -1⟩
        ⟨VideoState.streamoff, -1⟩).still_inf.state =
      VideoState.streamoff ∧
    (video_takepict_start
        (Mng.mk ⟨VideoState.streamoff, -1⟩ ⟨VideoState.streamoff, -1⟩)
        false true 3).1.still_inf.remaining_capnum = 3 :=
  ⟨rfl, by
    have h := (C3_takepict_start
      (Mng.mk ⟨VideoState.streamoff, -1⟩ ⟨VideoState.streamoff, -1⟩)
      false true 3).2 rfl
    simpa using h.2.1⟩

/-- the claim C4: video_takepict_stop returns NOT_PERMITTED exactly when
the still stream is in STREAMOFF with remaining_capnum infinite, and
then changes nothing; otherwise it cancels DMA when the still stream is
in DMA, resets the still stream to STREAMOFF with remaining_capnum
infinite, and re-evaluates the video state with cause STILL_STOP, so a
video stream in STREAMON resumes to DMA when a queued video slot is
available. -/
theorem C4_takepict_stop (m : Mng) (vq : Bool) :
    ((m.still_inf.state = VideoState.streamoff ∧
        m.still_inf.remaining_capnum = VIDEO_REMAINING_CAPNUM_INFINITY) ↔
       (video_takepict_stop m vq).2.2 = -EPERM) ∧
    ((video_takepict_stop m vq).2.2 = -EPERM →
       video_takepict_stop m vq = (m, [], -EPERM)) ∧
    ((video_takepict_stop m vq).2.2 ≠ -EPERM →
       (video_takepict_stop m vq).2.2 = OK ∧
       (video_takepict_stop m vq).1.still_inf.state =
         VideoState.streamoff ∧
       (video_takepict_stop m vq).1.still_inf.remaining_capnum =
         VIDEO_REMAINING_CAPNUM_INFINITY ∧
       (m.still_inf.state = VideoState.dma →
          DmaAction.cancelDma ∈ (video_takepict_stop m vq).2.1) ∧
       (m.video_inf.state = VideoState.streamon → vq = true →
          (video_takepict_stop m vq).1.video_inf.state =
            VideoState.dma)) := by
  by_cases hp : m.still_inf.state = VideoState.streamoff ∧
      m.still_inf.remaining_capnum = VIDEO_REMAINING_CAPNUM_INFINITY
  · refine ⟨by simp [video_takepict_stop, hp, OK, EPERM], ?_, ?_⟩
    · intro _; simp [video_takepict_stop, hp]
    · intro hne
      exact absurd (by simp [video_takepict_stop, hp]) hne
  · have hret : (video_takepict_stop m vq).2.2 = OK := by
      simp [video_takepict_stop, hp]
    refine ⟨?_, ?_, ?_⟩
    · constructor
      · intro h; exact absurd h hp
      · intro h
        rw [hret] at h
        exact absurd h (by simp [OK, EPERM])
    · intro h
      rw [hret] at h
      exact absurd h (by simp [OK, EPERM])
    · intro _
      refine ⟨hret, ?_, ?_, ?_, ?_⟩
      · simp [video_takepict_stop, hp, change_video_state_still_inf]
      · simp [video_takepict_stop, hp, change_video_state_still_inf]
      · intro hdma
        simp [video_takepict_stop, hp, hdma]
      · intro hvon hvq
        simp [video_takepict_stop, hp, change_video_state_video_state,
              estimate_next_video_state, hvon, hvq]

/-- Witness for C4: with the still stream in DMA (remaining 1) and the
video stream in STREAMON with a queued video slot, take_picture_stop
succeeds, cancels the still DMA and resumes video to DMA. -/
theorem C4_takepict_stop_witness :
    (video_takepict_stop
        (Mng.mk ⟨VideoState.streamon, -1⟩ ⟨VideoState.dma, 1⟩)
        true).2.2 = OK ∧
    (video_takepict_stop
        (Mng.mk ⟨VideoState.streamon, -1⟩ ⟨VideoState.dma, 1⟩)
        true).1.video_inf.state = VideoState.dma := by
  have h := (C4_takepict_stop
      (Mng.mk ⟨VideoState.streamon, -1⟩ ⟨VideoState.dma, 1⟩) true).2.2
      (by decide)
  exact ⟨h.1, h.2.2.2.2 rfl rfl⟩

/-- video_streamon: for the still buffer type the source returns OK
before touching any state (no procedure for STREAMON(STILL_CAPTURE));
for the video type it rejects a stream not in STREAMOFF with -EPERM and
otherwise applies the arbiter with CAUSE_VIDEO_START. -/
def video_streamon (m : Mng) (video_has_queued : Bool) (t : BufType) :
    Mng × List DmaAction × Int :=
  match t with
  | BufType.stillCapture => (m, [], OK)
  | BufType.videoCapture =>
      if m.video_inf.state ≠ VideoState.streamoff then
        (m, [], -EPERM)
      else
        let next := estimate_next_video_state m.video_inf.state
                      m.still_inf.state Cause.videoStart
        let r := change_video_state m video_has_queued next
        (r.1, r.2, OK)

/-- video_streamoff: for the still buffer type the source returns OK
before touching any state; for the video type it rejects a stream in
STREAMOFF with -EPERM and otherwise applies the arbiter with
CAUSE_VIDEO_STOP, cancelling an in-flight DMA. -/
def video_streamoff (m : Mng) (video_has_queued : Bool) (t : BufType) :
    Mng × List DmaAction × Int :=
  match t with
  | BufType.stillCapture => (m, [], OK)
  | BufType.videoCapture =>
      if m.video_inf.state = VideoState.streamoff then
        (m, [], -EPERM)
      else
        let next := estimate_next_video_state m.video_inf.state
                      m.still_inf.state Cause.videoStop
        let r := change_video_state m video_has_queued next
        (r.1, r.2, OK)

/-- the claim C10: streamon and streamoff with the still-capture buffer
type always return OK and are complete no-ops: the manager state is
returned unchanged (both stream states and remaining_capnum untouched)
and no DMA action is issued. -/
theorem C10_still_streamon_streamoff_noop (m : Mng) (vq : Bool) :
    video_streamon m vq BufType.stillCapture = (m, [], OK) ∧
    video_streamoff m vq BufType.stillCapture = (m, [], OK) :=
  ⟨rfl, rfl⟩

/-- Buffering mode of the frame buffer queue, ring versus fifo
(V4L2_BUF_MODE_RING / V4L2_BUF_MODE_FIFO). -/
inductive FbMode
  | ring
  | fifo
deriving DecidableEq

/-- Queue configuration held by video_framebuff_t that video_reqbufs
sets: buffering mode and container capacity. -/
structure Framebuff where
  mode : FbMode
  capacity : Nat
deriving DecidableEq

/-- Modelled from the spec: video_framebuff_change_mode lives in
video_framebuff.c, which is not under src; per the FrameBufferQueue
contract set_mode sets ring versus fifo with no effect on the slots. -/
def video_framebuff_change_mode (b : Framebuff) (mode : FbMode) :
    Framebuff :=
  { b with mode := mode }

/-- Modelled from the spec: video_framebuff_realloc_container lives in
video_framebuff.c, which is not under src; per the FrameBufferQueue
contract realloc resizes to n container slots and fails only when a
slot is dma-current.  video_reqbufs calls it only when the stream state
is not DMA, where no slot is dma-current, so the success path applies. -/
def video_framebuff_realloc_container (b : Framebuff) (n : Nat) :
    Framebuff × Int :=
  ({ b with capacity := n }, OK)

/-- video_reqbufs: rejects the request with -EPERM while the target
stream is in DMA, otherwise sets the buffering mode and resizes the
queue to the requested count. -/
def video_reqbufs (st : VideoState) (b : Framebuff) (count : Nat)
    (mode : FbMode) : Framebuff × Int :=
  if st = VideoState.dma then
    (b, -EPERM)
  else
    let b1 := video_framebuff_change_mode b mode
    video_framebuff_realloc_container b1 count

/-- the claim C8: video_reqbufs returns NOT_PERMITTED when the target
stream state is DMA and then leaves the queue mode and capacity
unchanged; when the state is not DMA it sets the requested mode and
resizes the queue to the requested count. -/
theorem C8_reqbufs (st : VideoState) (b : Framebuff) (count : Nat)
    (mode : FbMode) :
    (st = VideoState.dma →
       video_reqbufs st b count mode = (b, -EPERM)) ∧
    (st ≠ VideoState.dma →
       (video_reqbufs st b count mode).2 = OK ∧
       (video_reqbufs st b count mode).1.mode = mode ∧
       (video_reqbufs st b count mode).1.capacity = count) := by
  constructor
  · intro h
    simp [video_reqbufs, h]
  · intro h
    simp [video_reqbufs, h, video_framebuff_change_mode,
          video_framebuff_realloc_container]

/-- Witness for C8: requesting 4 fifo buffers while the stream is in
DMA fails with -EPERM and leaves the ring-mode 2-slot queue unchanged;
the same request while in STREAMOFF resizes to 4 fifo slots. -/
theorem C8_reqbufs_witness :
    video_reqbufs VideoState.dma (Framebuff.mk FbMode.ring 2) 4
        FbMode.fifo = (Framebuff.mk FbMode.ring 2, -EPERM) ∧
    (video_reqbufs VideoState.streamoff (Framebuff.mk FbMode.ring 2) 4
        FbMode.fifo).1.capacity = 4 :=
  ⟨(C8_reqbufs VideoState.dma (Framebuff.mk FbMode.ring 2) 4
      FbMode.fifo).1 rfl,
   ((C8_reqbufs VideoState.streamoff (Framebuff.mk FbMode.ring 2) 4
      FbMode.fifo).2 (by decide)).2.2⟩

/-- video_close: the source initializes ret to ERROR, returns OK early
when the open count is already zero, and otherwise decrements the open
count, runs the last-close cleanup when it reaches zero, and returns
ret, which is still ERROR.  The cleanup calls cannot fail. -/
def video_close (open_num : Nat) : Int × Nat :=
  if open_num = 0 then (OK, 0)
  else (ERROR, open_num - 1)

/-- the claim C9 evaluated at the failing input: closing with one open
reference decrements the count and completes the cleanup, yet the
source returns ERROR, not OK, on this clean close. -/
theorem C9_close_returns_error_on_clean_close :
    video_close 1 = (ERROR, 0) ∧ ERROR ≠ OK := by
  constructor
  · rfl
  · decide

/-- Wake causes for the blocked dequeue, enum video_waitend_cause_e. -/
inductive WaitendCause
  | dmadone
  | dqcancel
  | stillstop
deriving DecidableEq

/-- The single-slot rendezvous struct video_wait_dma_s between the
notify path and a blocked dequeue: the wake cause and the container
saved for the waiter (identified here by an index). -/
structure WaitDma where
  waitend_cause : WaitendCause
  done_container : Option Nat
deriving DecidableEq

/-- V4L2_BUF_FLAG_ERROR set on the buffer when DMA reports an error. -/
def V4L2_BUF_FLAG_ERROR : Nat := 64

/-- The fields of the target struct video_type_inf_s read and written by
video_common_notify_dma_done: the stream state, remaining_capnum, the
flags and bytesused stamped into the dma-current buffer, and the
rendezvous. -/
structure NotifyInf where
  state : VideoState
  remaining_capnum : Int
  dma_flags : Nat
  dma_bytesused : Nat
  wait_dma : WaitDma
deriving DecidableEq

/-- Collaborator answers consumed by video_common_notify_dma_done: the
buffer type reported by get_buftype, whether a dequeue waiter is blocked
on this stream (is_sem_waited), the container that
video_framebuff_pop_curr_container hands to that waiter, whether
video_framebuff_get_dma_container finds a next queued slot, and whether
a dequeue waiter is blocked on the video stream. -/
structure NotifyEnv where
  buf_type : BufType
  waiter : Bool
  popped : Nat
  next_container : Bool
  video_waiter : Bool
deriving DecidableEq

/-- Result of video_common_notify_dma_done: the updated stream record,
the DMA actions issued, whether this stream rendezvous was posted, and
whether the video stream rendezvous was posted with cause STILLSTOP. -/
structure NotifyOut where
  inf : NotifyInf
  actions : List DmaAction
  posted : Bool
  video_stillstop_posted : Bool
deriving DecidableEq

/-- video_common_notify_dma_done: the DMA completion callback.  On a
zero error code it clears the buffer flags and decrements a positive
remaining_capnum; on a nonzero error code it sets the error flag and
leaves remaining_capnum alone.  It stamps bytesused, moves the slot to
the done list (video_framebuff_dma_done, a queue-internal move), hands
the completed container to a blocked dequeue waiter with cause DMADONE,
and then either stops the stream when remaining_capnum reached zero
(notifying a blocked video dequeue with STILLSTOP when the stopped
stream is the still stream) or programs the next queued slot, idling to
STREAMON when none is queued. -/
def video_common_notify_dma_done (err_code : Nat) (datasize : Nat)
    (env : NotifyEnv) (t : NotifyInf) : NotifyOut :=
  let t1 :=
    if err_code = 0 then
      { t with dma_flags := 0,
               remaining_capnum :=
                 if t.remaining_capnum > 0 then t.remaining_capnum - 1
                 else t.remaining_capnum }
    else
      { t with dma_flags := V4L2_BUF_FLAG_ERROR }
  let t2 := { t1 with dma_bytesused := datasize }
  let t3 :=
    if env.waiter then
      { t2 with wait_dma := { waitend_cause := WaitendCause.dmadone,
                              done_container := some env.popped } }
    else t2
  if t3.remaining_capnum = 0 then
    { inf := { t3 with state := VideoState.streamoff },
      actions := [DmaAction.cancelDma],
      posted := env.waiter,
      video_stillstop_posted :=
        env.buf_type = BufType.stillCapture && env.video_waiter }
  else
    if env.next_container then
      { inf := t3, actions := [DmaAction.setDmabuf],
        posted := env.waiter, video_stillstop_posted := false }
    else
      { inf := { t3 with state := VideoState.streamon },
        actions := [DmaAction.cancelDma],
        posted := env.waiter, video_stillstop_posted := false }

/-- Helper: the remaining_capnum produced by the notify path is the
input count decremented exactly when the error code is zero and the
count is positive. -/
theorem notify_dma_done_remaining (err ds : Nat) (env : NotifyEnv)
    (t : NotifyInf) :
    (video_common_notify_dma_done err ds env t).inf.remaining_capnum =
      if err = 0 ∧ 0 < t.remaining_capnum then t.remaining_capnum - 1
      else t.remaining_capnum := by
  unfold video_common_notify_dma_done
  by_cases he : err = 0 <;> by_cases hr : 0 < t.remaining_capnum <;>
    simp [he, hr] <;> (repeat' split) <;> rfl

/-- Concrete stream record for the C2 counterexample: a still stream in
DMA with one remaining capture. -/
def c2Inf : NotifyInf :=
  { state := VideoState.dma, remaining_capnum := 1, dma_flags := 0,
    dma_bytesused := 0,
    wait_dma := { waitend_cause := WaitendCause.dmadone,
                  done_container := none } }

/-- Concrete collaborator answers for the C2 counterexample: still
buffer type, no waiters, no next queued slot. -/
def c2Env : NotifyEnv :=
  { buf_type := BufType.stillCapture, waiter := false, popped := 0,
    next_container := false, video_waiter := false }

/-- Counterexample to C2: a DMA-done notification with error code 1 on
a stream whose remaining_capnum is 1 (greater than zero) leaves
remaining_capnum at 1; the decrement is skipped on every nonzero error
code, so the reported error code does matter. -/
theorem C2_counterexample_error_code_blocks_decrement :
    0 < c2Inf.remaining_capnum ∧
    (video_common_notify_dma_done 1 100 c2Env c2Inf).inf.remaining_capnum ≠
      c2Inf.remaining_capnum - 1 := by
  constructor
  · decide
  · decide

/-- the claim C2 as amended: for every DMA-done notification delivered
to a resolved stream, when the reported error code is zero and
remaining_capnum is greater than zero, video_common_notify_dma_done
decrements remaining_capnum by exactly one; when the reported error
code is nonzero, remaining_capnum is unchanged. -/
theorem C2_notify_decrement (err ds : Nat) (env : NotifyEnv)
    (t : NotifyInf) :
    (err = 0 → 0 < t.remaining_capnum →
       (video_common_notify_dma_done err ds env t).inf.remaining_capnum =
         t.remaining_capnum - 1) ∧
    (err ≠ 0 →
       (video_common_notify_dma_done err ds env t).inf.remaining_capnum =
         t.remaining_capnum) := by
  constructor
  · intro he hr
    rw [notify_dma_done_remaining]
    simp [he, hr]
  · intro he
    rw [notify_dma_done_remaining]
    simp [he]

/-- Witness for C2: a clean completion (error code 0) on a stream with
remaining_capnum 2 leaves remaining_capnum 1. -/
theorem C2_notify_decrement_witness :
    (0 : Nat) = 0 ∧ (0 : Int) < 2 ∧
    (video_common_notify_dma_done 0 100 c2Env
        { c2Inf with remaining_capnum := 2 }).inf.remaining_capnum =
      2 - 1 :=
  ⟨rfl, by decide,
   (C2_notify_decrement 0 100 c2Env
      { c2Inf with remaining_capnum := 2 }).1 rfl (by decide)⟩

/-- video_cancel_dqbuf: when no thread is blocked in dequeue on the
stream (is_sem_waited is false) it returns OK untouched and does not
post; otherwise it records wake cause DQCANCEL and posts the rendezvous
semaphore.  The result carries the updated rendezvous, whether the
semaphore was posted, and the return value. -/
def video_cancel_dqbuf (waiter : Bool) (w : WaitDma) :
    WaitDma × Bool × Int :=
  if !waiter then
    (w, false, OK)
  else
    ({ w with waitend_cause := WaitendCause.dqcancel }, true, OK)

/-- Outcome of the blocked branch of video_dqbuf once the rendezvous
semaphore is posted. -/
inductive DqOutcome
  | gotBuffer (c : Nat)
  | canceled
  | retryWait
  | invalid
deriving DecidableEq

/-- The wake-up tail of video_dqbuf: the do-while loop re-enters the
wait while waitend_cause is STILLSTOP; otherwise the saved
done_container is consumed and returned, and a missing container with
cause DQCANCEL yields -ECANCELED.  A missing container with cause
DMADONE never occurs (the notify path stores the container before
posting with DMADONE) and is marked invalid. -/
def video_dqbuf_wake (w : WaitDma) : DqOutcome :=
  if w.waitend_cause = WaitendCause.stillstop then
    DqOutcome.retryWait
  else
    match w.done_container with
    | some c => DqOutcome.gotBuffer c
    | none =>
        if w.waitend_cause = WaitendCause.dqcancel then DqOutcome.canceled
        else DqOutcome.invalid

/-- the claim C7: video_cancel_dqbuf returns OK with no effect when no
thread is blocked in dequeue on the stream; when a waiter exists it
records wake cause DQCANCEL and posts the rendezvous, and the blocked
video_dqbuf then returns CANCELED, unless a DMA completion ran between
the test and the post and overwrote the cause with DMADONE, in which
case the dequeue returns the completed buffer instead. -/
theorem C7_cancel_dqbuf (w : WaitDma) (hnone : w.done_container = none)
    (ds : Nat) (env : NotifyEnv) (t : NotifyInf)
    (hwaiter : env.waiter = true) :
    video_cancel_dqbuf false w = (w, false, OK) ∧
    (video_cancel_dqbuf true w).2.2 = OK ∧
    (video_cancel_dqbuf true w).2.1 = true ∧
    (video_cancel_dqbuf true w).1.waitend_cause = WaitendCause.dqcancel ∧
    video_dqbuf_wake (video_cancel_dqbuf true w).1 = DqOutcome.canceled ∧
    video_dqbuf_wake
        (video_common_notify_dma_done 0 ds env
          { t with wait_dma := (video_cancel_dqbuf true w).1 }).inf.wait_dma =
      DqOutcome.gotBuffer env.popped := by
  refine ⟨rfl, rfl, rfl, rfl, ?_, ?_⟩
  · simp [video_cancel_dqbuf, video_dqbuf_wake, hnone]
  · have hwd : (video_common_notify_dma_done 0 ds env
        { t with wait_dma := (video_cancel_dqbuf true w).1 }).inf.wait_dma =
        { waitend_cause := WaitendCause.dmadone,
          done_container := some env.popped } := by
      unfold video_common_notify_dma_done
      simp [hwaiter]
      (repeat' split) <;> rfl
    rw [hwd]
    rfl

/-- Witness for C7 at a concrete rendezvous and stream: cancelling with
a waiter yields CANCELED, and with an interleaved DMA completion the
dequeue receives container 7 instead. -/
theorem C7_cancel_dqbuf_witness :
    (WaitDma.mk WaitendCause.dmadone none).done_container = none ∧
    c2Env.waiter = false ∧
    video_dqbuf_wake
        (video_cancel_dqbuf true (WaitDma.mk WaitendCause.dmadone none)).1 =
      DqOutcome.canceled ∧
    video_dqbuf_wake
        (video_common_notify_dma_done 0 256
          { buf_type := BufType.videoCapture, waiter := true, popped := 7,
            next_container := true, video_waiter := false }
          { c2Inf with wait_dma :=
              (video_cancel_dqbuf true
                (WaitDma.mk WaitendCause.dmadone none)).1 }).inf.wait_dma =
      DqOutcome.gotBuffer 7 := by
  have h := C7_cancel_dqbuf (WaitDma.mk WaitendCause.dmadone none) rfl 256
    { buf_type := BufType.videoCapture, waiter := true, popped := 7,
      next_container := true, video_waiter := false } c2Inf rfl
  exact ⟨rfl, rfl, h.2.2.2.2.1, h.2.2.2.2.2⟩

/-- gcd from the source (uint16 Euclid loop): keep dividing until the
remainder is zero and return the last nonzero divisor.  The source
computes a % b with b = 0 only if called with b = 0, which lcm guards
against; that unreachable branch returns a here. -/
def gcd_c (a b : Nat) : Nat :=
  if h : b = 0 then a
  else if a % b = 0 then b
  else gcd_c b (a % b)
termination_by b
decreasing_by exact Nat.mod_lt a (Nat.pos_of_ne_zero h)

/-- lcm from the source: (a / gcd(a,b)) * b when b is nonzero, else 0.
The uint16 return type truncates the product modulo 2^16. -/
def lcm_c (a b : Nat) : Nat :=
  if b ≠ 0 then ((a / gcd_c a b) * b) % 65536 else 0

/-- Helper: for a nonzero second argument the source gcd loop computes
the mathematical gcd. -/
theorem gcd_c_eq (a b : Nat) (hb : b ≠ 0) : gcd_c a b = Nat.gcd a b := by
  induction b using Nat.strong_induction_on generalizing a with
  | _ b ih =>
    unfold gcd_c
    rw [dif_neg hb]
    by_cases hm : a % b = 0
    · rw [if_pos hm]
      have hdvd : b ∣ a := Nat.dvd_of_mod_eq_zero hm
      have hgb : Nat.gcd a b = b := by
        rw [Nat.gcd_comm]
        exact Nat.gcd_eq_left hdvd
      exact hgb.symm
    · rw [if_neg hm]
      rw [ih (a % b) (Nat.mod_lt a (Nat.pos_of_ne_zero hb)) b hm]
      rw [Nat.gcd_comm a b, Nat.gcd_rec b a, Nat.gcd_comm (a % b) b]

/-- Helper: the source lcm equals the mathematical lcm truncated to 16
bits. -/
theorem lcm_c_eq (a b : Nat) : lcm_c a b = Nat.lcm a b % 65536 := by
  by_cases hb : b = 0
  · subst hb
    simp [lcm_c, Nat.lcm_zero_right]
  · have key : a / Nat.gcd a b * b = Nat.lcm a b := by
      have hlcm : Nat.lcm a b = a * b / Nat.gcd a b := rfl
      rw [hlcm, Nat.mul_comm (a / Nat.gcd a b) b,
          ← Nat.mul_div_assoc b (Nat.gcd_dvd_left a b), Nat.mul_comm b a]
    rw [lcm_c, if_pos hb, gcd_c_eq a b hb, key]

/-- One stepwise range of struct v4l2_frmsizeenum: minimum, maximum and
step for width and height. -/
structure SWise where
  min_width : Nat
  max_width : Nat
  step_width : Nat
  min_height : Nat
  max_height : Nat
  step_height : Nat
deriving DecidableEq

/-- Stepwise frame-size capability carrying the main image range and
the sub-image range, as filled by get_range_of_framesize. -/
structure FrmsizeCapa where
  main : SWise
  subimg : SWise
deriving DecidableEq

/-- One sensor answer to get_range_of_framesize at the current index:
either a discrete width/height pair (with sub-image pair) or a stepwise
capability. -/
inductive SensFrmsize
  | discrete (w h sw sh : Nat)
  | stepwise (c : FrmsizeCapa)
deriving DecidableEq

/-- What video_enum_framesizes writes into the output descriptor:
either one discrete pair or one merged stepwise descriptor. -/
inductive FrmsizeResult
  | discrete (w h sw sh : Nat)
  | stepwise (main sub : SWise)
deriving DecidableEq

/-- The stepwise merge of video_enum_framesizes: each step is the lcm
of the pipeline step and the sensor step (uint16-truncated by the lcm
return type), each minimum the larger of the two minima, each maximum
the smaller of the two maxima, for the main image and the sub-image. -/
def merge_stepwise (imgd sens : FrmsizeCapa) : FrmsizeResult :=
  FrmsizeResult.stepwise
    { step_width := lcm_c imgd.main.step_width sens.main.step_width,
      step_height := lcm_c imgd.main.step_height sens.main.step_height,
      min_width := max sens.main.min_width imgd.main.min_width,
      min_height := max sens.main.min_height imgd.main.min_height,
      max_width := min sens.main.max_width imgd.main.max_width,
      max_height := min sens.main.max_height imgd.main.max_height }
    { step_width := lcm_c imgd.subimg.step_width sens.subimg.step_width,
      step_height := lcm_c imgd.subimg.step_height sens.subimg.step_height,
      min_width := max sens.subimg.min_width imgd.subimg.min_width,
      min_height := max sens.subimg.min_height imgd.subimg.min_height,
      max_width := min sens.subimg.max_width imgd.subimg.max_width,
      max_height := min sens.subimg.max_height imgd.subimg.max_height }

/-- The enumeration loop of video_enum_framesizes.  The sensor answers,
indexed from zero up to its terminal sentinel, are the list sens.  A
discrete answer is checked against the pipeline try_format; accepted
pairs are counted and the pair whose running count equals the requested
index is written out.  A stepwise answer is merged with the pipeline
stepwise capability and written out at once.  Exhausting the sensor
answers writes nothing (the loop breaks with its local ret = -EINVAL). -/
def enum_framesizes_loop (imgd : FrmsizeCapa)
    (tryfmt : Nat → Nat → Nat → Nat → Bool) (target : Nat) :
    Nat → List SensFrmsize → Option FrmsizeResult
  | _, [] => none
  | supported, SensFrmsize.discrete w h sw sh :: rest =>
      if tryfmt w h sw sh then
        if target = supported then
          some (FrmsizeResult.discrete w h sw sh)
        else
          enum_framesizes_loop imgd tryfmt target (supported + 1) rest
      else
        enum_framesizes_loop imgd tryfmt target supported rest
  | _, SensFrmsize.stepwise c :: _ => some (merge_stepwise imgd c)

/-- video_enum_framesizes: queries the pipeline range (imgd_result,
with imgd_err the error it returned on failure), then runs the sensor
enumeration loop.  The source returns the pipeline error when that
first query fails, and otherwise returns OK unconditionally after the
loop, its local ret being discarded, even when the loop wrote no
descriptor. -/
def video_enum_framesizes (imgd_result : Option FrmsizeCapa)
    (imgd_err : Int) (tryfmt : Nat → Nat → Nat → Nat → Bool)
    (sens : List SensFrmsize) (index : Nat) :
    Int × Option FrmsizeResult :=
  match imgd_result with
  | none => (imgd_err, none)
  | some imgd => (OK, enum_framesizes_loop imgd tryfmt index 0 sens)

/-- the claim C5: when the sensor reports a stepwise capability for the
requested pixel format, video_enum_framesizes fills the stepwise
descriptor, main image and sub-image alike, with each step equal to the
least common multiple of the sensor step and the pipeline step, each
minimum equal to the larger of the two minima, and each maximum equal
to the smaller of the two maxima, computed over 16-bit unsigned
integers (the lcm is truncated modulo 2^16 by its uint16 return type). -/
theorem C5_enum_framesizes_stepwise (imgd c : FrmsizeCapa) (e : Int)
    (tryfmt : Nat → Nat → Nat → Nat → Bool) (rest : List SensFrmsize)
    (idx : Nat) :
    video_enum_framesizes (some imgd) e tryfmt
        (SensFrmsize.stepwise c :: rest) idx =
      (OK, some (FrmsizeResult.stepwise
        { step_width := Nat.lcm imgd.main.step_width c.main.step_width
            % 65536,
          step_height := Nat.lcm imgd.main.step_height c.main.step_height
            % 65536,
          min_width := max c.main.min_width imgd.main.min_width,
          min_height := max c.main.min_height imgd.main.min_height,
          max_width := min c.main.max_width imgd.main.max_width,
          max_height := min c.main.max_height imgd.main.max_height }
        { step_width := Nat.lcm imgd.subimg.step_width c.subimg.step_width
            % 65536,
          step_height := Nat.lcm imgd.subimg.step_height
            c.subimg.step_height % 65536,
          min_width := max c.subimg.min_width imgd.subimg.min_width,
          min_height := max c.subimg.min_height imgd.subimg.min_height,
          max_width := min c.subimg.max_width imgd.subimg.max_width,
          max_height := min c.subimg.max_height imgd.subimg.max_height })) := by
  simp [video_enum_framesizes, enum_framesizes_loop, merge_stepwise,
        lcm_c_eq]

/-- Witness for C5 is not needed (the theorem has no hypothesis); this
concrete pipeline capability serves the C6 evaluation. -/
def c6Imgd : FrmsizeCapa :=
  { main := { min_width := 96, max_width := 1920, step_width := 16,
              min_height := 64, max_height := 1080, step_height := 8 },
    subimg := { min_width := 96, max_width := 640, step_width := 16,
                min_height := 64, max_height := 480, step_height := 8 } }

/-- the claim C6 evaluated at the failing input: the sensor advertises
one discrete pair that the pipeline accepts, and index 1 is requested,
so the intersection at that index is empty; the source still returns OK
with no descriptor written, because the loop result held in its local
ret (initialized to -EINVAL) is discarded by the final return OK.  The
same happens when the sensor advertises nothing at all. -/
theorem C6_empty_intersection_returns_ok :
    video_enum_framesizes (some c6Imgd) (-EINVAL)
        (fun _ _ _ _ => true) [SensFrmsize.discrete 640 480 160 120] 1 =
      (OK, none) ∧
    video_enum_framesizes (some c6Imgd) (-EINVAL)
        (fun _ _ _ _ => true) [] 0 = (OK, none) ∧
    OK ≠ -EINVAL := by
  refine ⟨rfl, rfl, by decide⟩
